import Mathlib

/-!
Verification of the cache store (`clashroyale_py/cache.py`,
class `SqliteCacheStorage`) and the cache-backed fetch pipeline
(`clashroyale_py/client.py`, `Client._get_info_from_url` and
`Client._verify_status_code`).

Modelling conventions:
- JSON payloads (the output of `response.json()` and the argument of
  `json.dumps`) are the inductive `Json` below.  The TEXT `value` column of
  the sqlite table holds `json.dumps(value)`; `read` applies `json.loads`,
  which recovers the same JSON value, so the column is modelled by the
  `Json` value itself.
- Python `datetime` objects are modelled by their wall-clock reading in
  seconds together with their `utcoffset` (`none` for naive datetimes).
  `datetime.fromtimestamp` produces a naive datetime in *local* time
  (offset `localOff`), `datetime.utcnow()` a naive datetime showing UTC,
  `datetime.now(timezone.utc)` an aware datetime with offset 0, and
  `datetime.timestamp()` converts back to an epoch, assuming local time
  for naive values.  Comparison of two naive datetimes compares their
  wall-clock readings.
- The sqlite table `cache(key TEXT PRIMARY KEY, value TEXT, timestamp
  FLOAT)` is a list of rows; `INSERT OR REPLACE` drops the conflicting
  row and appends the new one, `DELETE ... WHERE key = ?` filters it out.
- Mutation is explicit state passing: `read` returns the result together
  with the store after the call (it deletes the row when it finds it
  expired).
-/

namespace ClashRoyale

/-- JSON-representable payload values, as produced by `response.json()`
and passed through `json.dumps` / `json.loads`.  Numbers are modelled as
integers. -/
inductive Json where
  | null : Json
  | bool : Bool → Json
  | num : Int → Json
  | str : String → Json
  | arr : List Json → Json
  | obj : List (String × Json) → Json
deriving Repr

/-- Python truthiness of a JSON value, as tested by the condition
`if data and timestamp` in `Client._get_info_from_url`: `None`, `False`,
`0`, the empty string, the empty list and the empty dict are falsy. -/
def Json.truthy : Json → Bool
  | .null => false
  | .bool b => b
  | .num n => n != 0
  | .str s => s != ""
  | .arr xs => !xs.isEmpty
  | .obj kvs => !kvs.isEmpty

/-- A Python `datetime`: its wall-clock reading in seconds together with
its `utcoffset` in seconds (`none` for a naive datetime). -/
structure PyDatetime where
  wall : Int
  off : Option Int
deriving DecidableEq, Repr

/-- `datetime.timestamp()`: an aware datetime uses its own offset, a naive
datetime is assumed to be in local time (offset `localOff`). -/
def PyDatetime.toEpoch (localOff : Int) (d : PyDatetime) : Int :=
  d.wall - d.off.getD localOff

/-- `datetime.fromtimestamp(e)`: a naive datetime showing epoch `e` in
local time. -/
def fromtimestamp (localOff : Int) (e : Int) : PyDatetime :=
  { wall := e + localOff, off := none }

/-- `datetime.utcnow()`: a naive datetime showing the current UTC time
(`trueNow` is the current epoch). -/
def utcnow (trueNow : Int) : PyDatetime :=
  { wall := trueNow, off := none }

/-- `datetime.now(timezone.utc)`: an aware datetime with offset 0. -/
def now_utc (trueNow : Int) : PyDatetime :=
  { wall := trueNow, off := some 0 }

/-- Python `datetime` objects are always truthy. -/
def PyDatetime.truthy : PyDatetime → Bool := fun _ => true

/-- One row of the sqlite table
`cache(key TEXT PRIMARY KEY, value TEXT, timestamp FLOAT)`.
`timestamp` holds the epoch produced by `datetime.timestamp()`. -/
structure Row where
  key : String
  value : Json
  timestamp : Int
deriving Repr

/-- The table contents.  The operations below preserve key uniqueness
(`key` is the PRIMARY KEY). -/
abbrev Store := List Row

/-- `DELETE FROM cache WHERE key = ?`. -/
def sqlDelete (s : Store) (k : String) : Store :=
  s.filter (fun r => r.key != k)

/-- `INSERT OR REPLACE INTO cache ...`: sqlite removes the row conflicting
on the PRIMARY KEY and inserts the new row. -/
def sqlInsertOrReplace (s : Store) (r : Row) : Store :=
  sqlDelete s r.key ++ [r]

/-- `SqliteCacheStorage.create(key, value, timestamp)`. -/
def create (localOff : Int) (s : Store) (key : String) (value : Json)
    (timestamp : PyDatetime) : Store :=
  sqlInsertOrReplace s
    { key := key, value := value, timestamp := timestamp.toEpoch localOff }

/-- The two failures of `SqliteCacheStorage.read`, distinguished by their
message strings: `Key expired in cache` and `Key not found in cache`. -/
inductive CacheError where
  | expired : String → CacheError
  | notFound : String → CacheError
deriving DecidableEq, Repr

/-- Both cache read failures are raised as Python `KeyError` instances,
so `isinstance(cache_exception, KeyError)` holds for either of them. -/
def CacheError.isKeyError : CacheError → Bool := fun _ => true

/-- `SqliteCacheStorage.read(key)`: SELECT the row, then test
`datetime.fromtimestamp(row[1]) + self.expiration_time > datetime.utcnow()`
(two naive datetimes, compared by wall-clock reading).  On a fresh row it
returns `(json.loads(row[0]), datetime.fromtimestamp(row[1]))`; on an
expired row it deletes the row and raises the expired `KeyError`; on a
missing row it raises the not-found `KeyError`.  `ttl` is
`expiration_time` in seconds. -/
def read (localOff ttl trueNow : Int) (s : Store) (key : String) :
    Except CacheError (Json × PyDatetime) × Store :=
  match s.find? (fun r => r.key == key) with
  | some row =>
      if (fromtimestamp localOff row.timestamp).wall + ttl
          > (utcnow trueNow).wall then
        (Except.ok (row.value, fromtimestamp localOff row.timestamp), s)
      else
        (Except.error (CacheError.expired key), sqlDelete s key)
  | none => (Except.error (CacheError.notFound key), s)

/-- `SqliteCacheStorage.update(key, value, timestamp)`:
`UPDATE cache SET value = ?, timestamp = ? WHERE key = ?`; a no-op when
the key is absent. -/
def update (localOff : Int) (s : Store) (key : String) (value : Json)
    (timestamp : PyDatetime) : Store :=
  s.map (fun r =>
    if r.key == key then
      { key := key, value := value, timestamp := timestamp.toEpoch localOff }
    else r)

/-- `SqliteCacheStorage.delete(key)`. -/
def delete (s : Store) (key : String) : Store :=
  sqlDelete s key

/-- The exception classes of `errors.py`.  `StatusError` subclasses:
`UnexpectedError`, `BadRequest`, `NotFoundError`, `ServerError`,
`Unauthorized`, `NotTrackedError`, `RateLimitError`. -/
inductive RequestException where
  | timeoutError : RequestException
  | networkError : RequestException
  | unexpectedError : RequestException
  | badRequest : RequestException
  | notFoundError : RequestException
  | serverError : RequestException
  | unauthorized : RequestException
  | notTrackedError : RequestException
  | rateLimitError : RequestException
deriving DecidableEq, Repr

/-- `Client._verify_status_code`: every status code other than 200 raises
`errors.UnexpectedError`. -/
def verify_status_code (status_code : Int) : Except RequestException Unit :=
  if status_code != 200 then Except.error RequestException.unexpectedError
  else Except.ok ()

/-- The value returned by `Client._get_info_from_url`, extended with the
store contents after the call and with whether the network request was
performed. -/
structure PipelineResult where
  data : Json
  is_from_cache : Bool
  timestamp : PyDatetime
  fetchInvoked : Bool
  store : Store
deriving Repr

/-- `Client._get_info_from_url(url, timeout, force_request)` for the case
where the network fetch, when reached, succeeds with payload `fetchData`.
`cacheEnabled` models `self.cache` being a storage object rather than
`None`.  The source records any exception of `self.cache.read` in
`cache_exception` and writes the fetched data back with
`self.cache.create` under the guard
`self.cache and isinstance(cache_exception, KeyError) and not force_request`. -/
def get_info_from_url (localOff ttl trueNow : Int) (cacheEnabled : Bool)
    (s : Store) (url : String) (fetchData : Json) (force_request : Bool) :
    PipelineResult :=
  let phase1 : (Json × PyDatetime × Store) ⊕ (Store × Option CacheError) :=
    if cacheEnabled && !force_request then
      match read localOff ttl trueNow s url with
      | (Except.ok (data, ts), s1) =>
          if data.truthy && ts.truthy then Sum.inl (data, ts, s1)
          else Sum.inr (s1, none)
      | (Except.error e, s1) => Sum.inr (s1, some e)
    else Sum.inr (s, none)
  match phase1 with
  | Sum.inl (data, ts, s1) =>
      { data := data, is_from_cache := true, timestamp := ts,
        fetchInvoked := false, store := s1 }
  | Sum.inr (s1, cacheExc) =>
      let ts := now_utc trueNow
      let doWrite :=
        cacheEnabled && (cacheExc.elim false CacheError.isKeyError)
          && !force_request
      { data := fetchData, is_from_cache := false, timestamp := ts,
        fetchInvoked := true,
        store := if doWrite then create localOff s1 url fetchData ts else s1 }

/-! ## Helper lemmas -/

theorem mem_sqlDelete (s : Store) (k : String) (r : Row) :
    r ∈ sqlDelete s k ↔ (r ∈ s ∧ ¬(r.key = k)) := by
  simp [sqlDelete, List.mem_filter]

theorem find?_sqlDelete_self (s : Store) (k : String) :
    (sqlDelete s k).find? (fun r => r.key == k) = none := by
  rw [List.find?_eq_none]
  intro x hx
  simp [sqlDelete, List.mem_filter] at hx
  simp [hx.2]

theorem find?_create_self (localOff : Int) (s : Store) (k : String) (v : Json)
    (t : PyDatetime) :
    (create localOff s k v t).find? (fun r => r.key == k)
      = some { key := k, value := v, timestamp := t.toEpoch localOff } := by
  unfold create sqlInsertOrReplace
  rw [List.find?_append, find?_sqlDelete_self]
  simp

/-- A successful `read` leaves the store unchanged. -/
theorem read_ok_store (localOff ttl trueNow : Int) (s s1 : Store) (k : String)
    (v : Json) (ts : PyDatetime)
    (h : read localOff ttl trueNow s k = (Except.ok (v, ts), s1)) : s1 = s := by
  cases hf : List.find? (fun r => r.key == k) s with
  | none =>
      simp only [read, hf] at h
      exact absurd h (by simp)
  | some row =>
      simp only [read, hf] at h
      by_cases hc : (fromtimestamp localOff row.timestamp).wall + ttl
          > (utcnow trueNow).wall
      · rw [if_pos hc] at h
        exact (congrArg Prod.snd h).symm
      · rw [if_neg hc] at h
        exact absurd h (by simp)

/-- A `read` that raises the expired `KeyError` leaves the store with the
key deleted. -/
theorem read_expired_store (localOff ttl trueNow : Int) (s : Store) (k : String)
    (h : (read localOff ttl trueNow s k).1
      = Except.error (CacheError.expired k)) :
    (read localOff ttl trueNow s k).2 = sqlDelete s k := by
  cases hf : List.find? (fun r => r.key == k) s with
  | none =>
      simp only [read, hf] at h
      exact absurd h (by simp)
  | some row =>
      by_cases hc : (fromtimestamp localOff row.timestamp).wall + ttl
          > (utcnow trueNow).wall
      · simp only [read, hf, if_pos hc] at h
        exact absurd h (by simp)
      · simp only [read, hf, if_neg hc]

/-- A `read` that does not raise the expired `KeyError` leaves the store
unchanged. -/
theorem read_store_of_ne_expired (localOff ttl trueNow : Int) (s : Store)
    (k : String)
    (h : (read localOff ttl trueNow s k).1
      ≠ Except.error (CacheError.expired k)) :
    (read localOff ttl trueNow s k).2 = s := by
  cases hf : List.find? (fun r => r.key == k) s with
  | none => simp only [read, hf]
  | some row =>
      by_cases hc : (fromtimestamp localOff row.timestamp).wall + ttl
          > (utcnow trueNow).wall
      · simp only [read, hf, if_pos hc]
      · simp only [read, hf, if_neg hc] at h
        exact absurd rfl h

/-! ## Claims -/

/-- Claim C1, counterexample: with caching enabled and `force_request`
false, a cache read that fails with the expired `KeyError` is followed,
after the network fetch, by a cache write-back — `create` runs and the
store ends up holding the fetched value with the fetch timestamp.  The
claim states that no write-back occurs after an `Expired` failure. -/
theorem C1_counterexample :
    (read 0 60 100 [{ key := "u", value := Json.num 1, timestamp := 0 }] "u").1
      = Except.error (CacheError.expired "u")
    ∧ (get_info_from_url 0 60 100 true
          [{ key := "u", value := Json.num 1, timestamp := 0 }] "u"
          (Json.num 2) false).store
      = [{ key := "u", value := Json.num 2, timestamp := 100 }] :=
  ⟨rfl, rfl⟩

/-- Claim C1, amended: after a successful fetch with caching enabled and
`force_request` false, the result is written back with `create` whenever
the preceding cache read raised a `KeyError` — and both the `NotFound`
and the `Expired` failure of `SqliteCacheStorage.read` are `KeyError`
instances, so the write-back happens after either failure, not only after
`NotFound`. -/
theorem C1_writeback_on_any_keyerror (localOff ttl trueNow : Int) (s s1 : Store)
    (url : String) (fetchData : Json) (e : CacheError)
    (h : read localOff ttl trueNow s url = (Except.error e, s1)) :
    (get_info_from_url localOff ttl trueNow true s url fetchData false).store
      = create localOff s1 url fetchData (now_utc trueNow) := by
  simp only [get_info_from_url, h]
  simp [CacheError.isKeyError]

theorem C1_writeback_witness :
    (get_info_from_url 0 60 100 true
        [{ key := "w", value := Json.num 1, timestamp := 0 }] "w"
        (Json.num 2) false).store
      = create 0 [] "w" (Json.num 2) (now_utc 100) :=
  C1_writeback_on_any_keyerror 0 60 100
    [{ key := "w", value := Json.num 1, timestamp := 0 }] [] "w" (Json.num 2)
    (CacheError.expired "w") rfl

/-- Claim C2, counterexample: an entry written at epoch 0 under a TTL of
60 and read at exactly epoch 60 (same clock basis, local offset 0) fails
as expired, whereas the claim requires a read at `now = stored_at + d` to
succeed — the freshness test of `SqliteCacheStorage.read` is strict. -/
theorem C2_counterexample :
    (read 0 60 60 (create 0 [] "k" (Json.num 1) { wall := 0, off := some 0 }) "k").1
      = Except.error (CacheError.expired "k") := rfl

/-- Claim C2, amended: under a consistent clock (local offset 0), an entry
written at epoch `t0` under TTL `d` reads back successfully iff
`now < t0 + d` strictly; at `now = t0 + d` and beyond the read fails as
expired. -/
theorem C2_freshness_strict (d t0 now : Int) (s : Store) (k : String) (v : Json) :
    (read 0 d now (create 0 s k v { wall := t0, off := some 0 }) k).1
      = if t0 + d > now then Except.ok (v, fromtimestamp 0 t0)
        else Except.error (CacheError.expired k) := by
  have he : ({ wall := t0, off := some 0 } : PyDatetime).toEpoch 0 = t0 := by
    simp [PyDatetime.toEpoch]
  simp only [read, find?_create_self, he]
  by_cases hc : t0 + d > now
  · rw [if_pos, if_pos hc]
    show (fromtimestamp 0 t0).wall + d > (utcnow now).wall
    simp only [fromtimestamp, utcnow]
    omega
  · rw [if_neg, if_neg hc]
    show ¬((fromtimestamp 0 t0).wall + d > (utcnow now).wall)
    simp only [fromtimestamp, utcnow]
    omega

/-- Claim C3, counterexample: a fresh cache entry holding the empty dict
(a falsy payload) is read back successfully, yet the pipeline does not
return it: the `if data and timestamp` test fails, the network fetch runs
and the caller receives the fetched value with `is_from_cache = false`.
The claim requires the cached value to be returned for every payload
including empty/falsy ones. -/
theorem C3_counterexample :
    (read 0 60 10 [{ key := "u", value := Json.obj [], timestamp := 0 }] "u").1
      = Except.ok (Json.obj [], fromtimestamp 0 0)
    ∧ (get_info_from_url 0 60 10 true
          [{ key := "u", value := Json.obj [], timestamp := 0 }] "u"
          (Json.num 7) false)
      = { data := Json.num 7, is_from_cache := false, timestamp := now_utc 10,
          fetchInvoked := true,
          store := [{ key := "u", value := Json.obj [], timestamp := 0 }] } :=
  ⟨rfl, rfl⟩

/-- Claim C3, amended: for every key holding a fresh cache entry whose
value is truthy, the pipeline with caching enabled and `force_request`
false returns the cached value, `is_from_cache = true` and the entry's
`stored_at`, without performing the network fetch. -/
theorem C3_fresh_truthy_hit (localOff ttl trueNow : Int) (s s1 : Store)
    (url : String) (fetchData v : Json) (ts : PyDatetime)
    (hread : read localOff ttl trueNow s url = (Except.ok (v, ts), s1))
    (hv : v.truthy = true) :
    get_info_from_url localOff ttl trueNow true s url fetchData false
      = { data := v, is_from_cache := true, timestamp := ts,
          fetchInvoked := false, store := s1 } := by
  simp only [get_info_from_url, hread]
  simp [hv, PyDatetime.truthy]

theorem C3_fresh_truthy_hit_witness :
    get_info_from_url 0 60 10 true
        [{ key := "x", value := Json.num 5, timestamp := 0 }] "x"
        (Json.num 9) false
      = { data := Json.num 5, is_from_cache := true,
          timestamp := fromtimestamp 0 0, fetchInvoked := false,
          store := [{ key := "x", value := Json.num 5, timestamp := 0 }] } :=
  C3_fresh_truthy_hit 0 60 10
    [{ key := "x", value := Json.num 5, timestamp := 0 }]
    [{ key := "x", value := Json.num 5, timestamp := 0 }] "x"
    (Json.num 9) (Json.num 5) (fromtimestamp 0 0) rfl rfl

/-- Claim C4: `Client._verify_status_code` maps every non-success status
code — retryable (429 rate limit, 500/503 server errors) and
non-retryable (400 bad request, 401 unauthorized, 404 not found) alike —
to the single error `UnexpectedError`, collapsing the distinction the
specification requires (the taxonomy of `errors.py` is never raised). -/
theorem C4_status_errors_collapse :
    verify_status_code 400 = Except.error RequestException.unexpectedError
    ∧ verify_status_code 401 = Except.error RequestException.unexpectedError
    ∧ verify_status_code 404 = Except.error RequestException.unexpectedError
    ∧ verify_status_code 429 = Except.error RequestException.unexpectedError
    ∧ verify_status_code 500 = Except.error RequestException.unexpectedError
    ∧ verify_status_code 503 = Except.error RequestException.unexpectedError :=
  ⟨rfl, rfl, rfl, rfl, rfl, rfl⟩

/-- Claim C5: a read that finds an expired entry deletes it before
raising the expired `KeyError`: the store after the read is the store
with the key deleted, and a second immediate read of the same key fails
with the not-found `KeyError`, not the expired one. -/
theorem C5_read_triggered_eviction (localOff ttl trueNow ttl2 trueNow2 : Int)
    (s : Store) (k : String)
    (h : (read localOff ttl trueNow s k).1
      = Except.error (CacheError.expired k)) :
    (read localOff ttl trueNow s k).2 = sqlDelete s k
    ∧ (read localOff ttl2 trueNow2 ((read localOff ttl trueNow s k).2) k).1
      = Except.error (CacheError.notFound k) := by
  have h2 : (read localOff ttl trueNow s k).2 = sqlDelete s k :=
    read_expired_store localOff ttl trueNow s k h
  refine ⟨h2, ?_⟩
  rw [h2]
  simp only [read, find?_sqlDelete_self]

theorem C5_read_triggered_eviction_witness :
    (read 0 60 100 [{ key := "e", value := Json.num 3, timestamp := 0 }] "e").2
      = sqlDelete [{ key := "e", value := Json.num 3, timestamp := 0 }] "e"
    ∧ (read 0 60 100
        ((read 0 60 100 [{ key := "e", value := Json.num 3, timestamp := 0 }] "e").2)
        "e").1
      = Except.error (CacheError.notFound "e") :=
  C5_read_triggered_eviction 0 60 100 60 100
    [{ key := "e", value := Json.num 3, timestamp := 0 }] "e" rfl

/-- Claim C6, counterexample: `create` with the aware UTC timestamp the
pipeline actually uses (`datetime.now(timezone.utc)`, here epoch 100 with
offset 0) followed by a fresh read returns the exact value, but the
returned `stored_at` is `datetime.fromtimestamp(...)` — a naive datetime
— which is not equal to the original aware timestamp (in Python a naive
and an aware datetime are never equal). -/
theorem C6_counterexample :
    (read 0 60 100 (create 0 [] "k" (Json.num 1) { wall := 100, off := some 0 }) "k").1
      = Except.ok (Json.num 1, { wall := 100, off := none })
    ∧ ({ wall := 100, off := none } : PyDatetime)
        ≠ { wall := 100, off := some 0 } :=
  ⟨rfl, by decide⟩

/-- Claim C6, amended: `create(K, V, T)` followed by a fresh read returns
exactly the stored JSON value `V`, and as `stored_at` the naive datetime
`fromtimestamp(T.timestamp())` — the same instant re-expressed in local
time, which equals the original `T` exactly when `T` was itself naive. -/
theorem C6_roundtrip (localOff d now : Int) (s : Store) (k : String) (v : Json)
    (T : PyDatetime) (hfresh : T.toEpoch localOff + localOff + d > now) :
    (read localOff d now (create localOff s k v T) k).1
      = Except.ok (v, fromtimestamp localOff (T.toEpoch localOff))
    ∧ (T.off = none → fromtimestamp localOff (T.toEpoch localOff) = T) := by
  constructor
  · simp only [read, find?_create_self]
    rw [if_pos]
    show (fromtimestamp localOff (T.toEpoch localOff)).wall + d
      > (utcnow now).wall
    simp only [fromtimestamp, utcnow]
    omega
  · intro hT
    cases T with
    | mk w o =>
        simp only at hT
        subst hT
        have hw : w - localOff + localOff = w := by omega
        simp [fromtimestamp, PyDatetime.toEpoch, hw]

theorem C6_roundtrip_witness :
    (read 0 60 10 (create 0 [] "rt" (Json.num 4) { wall := 0, off := some 0 }) "rt").1
      = Except.ok (Json.num 4,
          fromtimestamp 0 (({ wall := 0, off := some 0 } : PyDatetime).toEpoch 0))
    ∧ (({ wall := 0, off := some 0 } : PyDatetime).off = none →
        fromtimestamp 0 (({ wall := 0, off := some 0 } : PyDatetime).toEpoch 0)
          = { wall := 0, off := some 0 }) :=
  C6_roundtrip 0 60 10 [] "rt" (Json.num 4) { wall := 0, off := some 0 }
    (by decide)

/-- Claim C7: with `force_request = true` the pipeline performs the
network fetch, returns the fetched value with `is_from_cache = false` and
the fetch-time timestamp, and leaves the store exactly as it was — no
cache read result is used and no write-back happens, whatever the store
holds. -/
theorem C7_force_request_bypasses_cache (localOff ttl trueNow : Int)
    (cacheEnabled : Bool) (s : Store) (url : String) (fetchData : Json) :
    get_info_from_url localOff ttl trueNow cacheEnabled s url fetchData true
      = { data := fetchData, is_from_cache := false, timestamp := now_utc trueNow,
          fetchInvoked := true, store := s } := by
  simp [get_info_from_url]

/-- Claim C8: `create` is an unconditional upsert: a second `create` with
the same key fully absorbs the first, and the rows with that key in the
resulting store are exactly the single latest row (latest value and
latest timestamp); `create` is total, so it has no error conditions. -/
theorem C8_create_is_upsert (localOff : Int) (s : Store) (k : String)
    (v1 v2 : Json) (t1 t2 : PyDatetime) :
    create localOff (create localOff s k v1 t1) k v2 t2
      = create localOff s k v2 t2
    ∧ (create localOff (create localOff s k v1 t1) k v2 t2).filter
        (fun r => r.key == k)
      = [{ key := k, value := v2, timestamp := t2.toEpoch localOff }] := by
  have h1 : create localOff (create localOff s k v1 t1) k v2 t2
      = create localOff s k v2 t2 := by
    simp only [create, sqlInsertOrReplace, sqlDelete, List.filter_append,
      List.filter_filter]
    simp
  refine ⟨h1, ?_⟩
  rw [h1]
  simp only [create, sqlInsertOrReplace, sqlDelete, List.filter_append,
    List.filter_filter]
  simp

/-- Claim C9: when the cache read succeeds but returns a falsy value, the
pipeline performs the network fetch, returns the fetched value with
`is_from_cache = false` and the fetch-time timestamp, and does not write
back (no `KeyError` was recorded): the store is exactly the one the read
left, which a successful read leaves unchanged — the stale falsy entry
survives with its old timestamp. -/
theorem C9_falsy_cache_hit_falls_through (localOff ttl trueNow : Int)
    (s s1 : Store) (url : String) (fetchData v : Json) (ts : PyDatetime)
    (hread : read localOff ttl trueNow s url = (Except.ok (v, ts), s1))
    (hfalsy : v.truthy = false) :
    get_info_from_url localOff ttl trueNow true s url fetchData false
      = { data := fetchData, is_from_cache := false, timestamp := now_utc trueNow,
          fetchInvoked := true, store := s }
    ∧ s1 = s := by
  have hs : s1 = s := read_ok_store localOff ttl trueNow s s1 url v ts hread
  refine ⟨?_, hs⟩
  simp only [get_info_from_url, hread]
  simp [hfalsy, hs]

theorem C9_falsy_witness :
    (get_info_from_url 0 60 10 true
        [{ key := "f", value := Json.obj [], timestamp := 0 }] "f"
        (Json.num 7) false
      = { data := Json.num 7, is_from_cache := false, timestamp := now_utc 10,
          fetchInvoked := true,
          store := [{ key := "f", value := Json.obj [], timestamp := 0 }] })
    ∧ [({ key := "f", value := Json.obj [], timestamp := 0 } : Row)]
        = [{ key := "f", value := Json.obj [], timestamp := 0 }] :=
  C9_falsy_cache_hit_falls_through 0 60 10
    [{ key := "f", value := Json.obj [], timestamp := 0 }]
    [{ key := "f", value := Json.obj [], timestamp := 0 }] "f"
    (Json.num 7) (Json.obj []) (fromtimestamp 0 0) rfl rfl

/-- Claim C10: a `read` that succeeds, or fails with the not-found
`KeyError`, leaves the store exactly as it was; a `read` that fails with
the expired `KeyError` leaves the store with exactly the rows whose key
differs from the one read — the eviction removes only that key and every
other row keeps its value and timestamp. -/
theorem C10_read_frame (localOff ttl trueNow : Int) (s : Store) (k : String) :
    (∀ v ts, (read localOff ttl trueNow s k).1 = Except.ok (v, ts) →
      (read localOff ttl trueNow s k).2 = s)
    ∧ ((read localOff ttl trueNow s k).1 = Except.error (CacheError.notFound k) →
      (read localOff ttl trueNow s k).2 = s)
    ∧ ((read localOff ttl trueNow s k).1 = Except.error (CacheError.expired k) →
      (read localOff ttl trueNow s k).2 = sqlDelete s k)
    ∧ (∀ r, r ∈ sqlDelete s k ↔ (r ∈ s ∧ ¬(r.key = k))) := by
  refine ⟨?_, ?_, ?_, fun r => mem_sqlDelete s k r⟩
  · intro v ts h
    apply read_store_of_ne_expired
    rw [h]
    simp
  · intro h
    apply read_store_of_ne_expired
    rw [h]
    simp
  · intro h
    exact read_expired_store localOff ttl trueNow s k h

theorem C10_read_frame_witness :
    (read 0 60 10 [{ key := "g", value := Json.num 1, timestamp := 0 }] "g").2
      = [{ key := "g", value := Json.num 1, timestamp := 0 }] :=
  (C10_read_frame 0 60 10
      [{ key := "g", value := Json.num 1, timestamp := 0 }] "g").1
    (Json.num 1) (fromtimestamp 0 0) rfl

end ClashRoyale
